import Mathlib

/-!
Verification of the pan gesture recognizer
(`src/goog/dom/gestures/panrecognizer.js`).

JavaScript numbers are modelled as real numbers `ℝ` (the claims never
involve rounding at the limits of double precision, NaN or infinities).
Touch counts (`e.targetTouches.length`) are natural numbers; the stored
`minTouchCount_` / `maxTouchCount_` fields are integers, since the
constructor stores `1` / `999` and the setters store `value |= 0`,
an int32.

The base class `goog.dom.gestures.Recognizer` is not part of this
repository snapshot; the pieces of it that `PanRecognizer` uses
(`getPageX`/`getPageY`, `updateLocation`, `setState`, the base `reset`)
are modelled from the spec and marked as such in their doc comments.

Every dispatch method returns the updated recognizer together with the
list of states passed to `setState` during the dispatch, in order; per
the spec, each such `setState` call synchronously invokes the registered
callback, so this list records the callback invocations of the dispatch.
-/

namespace Gestures

/-- The gesture lifecycle states of `goog.dom.gestures.State`. -/
inductive State where
  | POSSIBLE
  | BEGAN
  | CHANGED
  | ENDED
  | RECOGNIZED
  | FAILED
  | CANCELLED
deriving DecidableEq, Repr

/-- One contact of a touch event: page coordinates of a
    `targetTouches` entry. -/
structure Touch where
  pageX : ℝ
  pageY : ℝ

/-- Modelled from the spec: the centroid tracked by the base
    `Recognizer` is the arithmetic mean position of the contacts
    (x component). An empty contact list yields `0/0 = 0`. -/
noncomputable def centroidX (ts : List Touch) : ℝ :=
  (ts.map Touch.pageX).sum / ts.length

/-- Modelled from the spec: mean position of the contacts, y component. -/
noncomputable def centroidY (ts : List Touch) : ℝ :=
  (ts.map Touch.pageY).sum / ts.length

/-- The fields of a `goog.dom.gestures.PanRecognizer` instance.
    `pageX`/`pageY` are the tracked centroid of the base `Recognizer`
    (returned by `getPageX()`/`getPageY()`); the remaining fields are
    the private fields set up in the `PanRecognizer` constructor. -/
structure PanRecognizer where
  state : State
  pageX : ℝ
  pageY : ℝ
  minTouchCount : ℤ
  maxTouchCount : ℤ
  moveHysteresis : ℝ
  centroidStartX : ℝ
  centroidStartY : ℝ
  centroidShiftX : ℝ
  centroidShiftY : ℝ
  centroidDistance : ℝ

/-- A freshly constructed recognizer: `minTouchCount_ = 1`,
    `maxTouchCount_ = 999`, `moveHysteresis_ = 6`, accumulators zero.
    The base class's initial tracked centroid is modelled as `(0, 0)`. -/
noncomputable def initialPan : PanRecognizer :=
  { state := .POSSIBLE
    pageX := 0
    pageY := 0
    minTouchCount := 1
    maxTouchCount := 999
    moveHysteresis := 6
    centroidStartX := 0
    centroidStartY := 0
    centroidShiftX := 0
    centroidShiftY := 0
    centroidDistance := 0 }

/-- Modelled from the spec: `updateLocation` of the base `Recognizer`
    rebuilds the tracked centroid from the event's contact list. -/
noncomputable def updateLocation (p : PanRecognizer) (ts : List Touch) :
    PanRecognizer :=
  { p with pageX := centroidX ts, pageY := centroidY ts }

/-- Modelled from the spec: `setState` of the base `Recognizer` stores
    the new state and synchronously invokes the registered callback;
    the returned singleton list records that invocation. -/
def setState (p : PanRecognizer) (s : State) : PanRecognizer × List State :=
  ({ p with state := s }, [s])

/-- Modelled from the spec: the base `Recognizer.reset` returns the
    recognizer to `POSSIBLE`, ready for the next gesture attempt. -/
def baseReset (p : PanRecognizer) : PanRecognizer :=
  { p with state := .POSSIBLE }

/-- `PanRecognizer.prototype.reset`: zero the working accumulators,
    then call the base class reset. -/
def reset (p : PanRecognizer) : PanRecognizer :=
  baseReset { p with
    centroidStartX := 0
    centroidStartY := 0
    centroidShiftX := 0
    centroidShiftY := 0
    centroidDistance := 0 }

/-- `getTranslateX`: `getPageX() - centroidStartX_ + centroidShiftX_`. -/
def getTranslateX (p : PanRecognizer) : ℝ :=
  p.pageX - p.centroidStartX + p.centroidShiftX

/-- `getTranslateY`: `getPageY() - centroidStartY_ + centroidShiftY_`. -/
def getTranslateY (p : PanRecognizer) : ℝ :=
  p.pageY - p.centroidStartY + p.centroidShiftY

/-- JavaScript's ToInt32, as applied by `value |= 0`: truncate toward
    zero, then wrap into the signed 32-bit range. (NaN and infinities,
    which ToInt32 maps to 0, fall outside the ℝ model.) -/
noncomputable def toInt32 (v : ℝ) : ℤ :=
  let t : ℤ := if 0 ≤ v then ⌊v⌋ else -⌊-v⌋
  let m : ℤ := t % 2 ^ 32
  if m ≥ 2 ^ 31 then m - 2 ^ 32 else m

/-- `setMinimumTouchCount`: asserts the state is `POSSIBLE`, truncates
    the value with `value |= 0`, asserts `value >= 1`, then stores it.
    A failed assertion throws before any store; it is modelled as
    `none`, leaving the recognizer unchanged. -/
noncomputable def setMinimumTouchCount (p : PanRecognizer) (value : ℝ) :
    Option PanRecognizer :=
  if p.state = .POSSIBLE then
    let v := toInt32 value
    if v ≥ 1 then some { p with minTouchCount := v } else none
  else none

/-- `setMaximumTouchCount`: same contract as `setMinimumTouchCount`,
    storing the maximum instead. -/
noncomputable def setMaximumTouchCount (p : PanRecognizer) (value : ℝ) :
    Option PanRecognizer :=
  if p.state = .POSSIBLE then
    let v := toInt32 value
    if v ≥ 1 then some { p with maxTouchCount := v } else none
  else none

/-- `PanRecognizer.prototype.touchesBegan`: remember the old centroid,
    recompute it from the new contact set; while `CHANGED`, fold the
    centroid delta into the shift accumulator and, if the contact count
    now exceeds `maxTouchCount_`, force `ENDED` and reset. -/
noncomputable def touchesBegan (p : PanRecognizer) (ts : List Touch) :
    PanRecognizer × List State :=
  let oldPageX := p.pageX
  let oldPageY := p.pageY
  let p := updateLocation p ts
  if p.state = .CHANGED then
    let p := { p with
      centroidShiftX := p.centroidShiftX - (p.pageX - oldPageX)
      centroidShiftY := p.centroidShiftY - (p.pageY - oldPageY) }
    if (ts.length : ℤ) > p.maxTouchCount then
      let r := setState p .ENDED
      (reset r.1, r.2)
    else
      (p, [])
  else
    (p, [])

/-- `PanRecognizer.prototype.touchesMoved`: ignore the event if the
    contact count is out of range; otherwise recompute the centroid,
    accumulate the Euclidean distance moved, and either begin (while
    `POSSIBLE`, once the accumulated distance exceeds the hysteresis:
    snap the start centroid, zero the shift, `BEGAN` then `CHANGED`)
    or re-fire `CHANGED` on any nonzero movement. -/
noncomputable def touchesMoved (p : PanRecognizer) (ts : List Touch) :
    PanRecognizer × List State :=
  if (ts.length : ℤ) < p.minTouchCount ∨ (ts.length : ℤ) > p.maxTouchCount then
    (p, [])
  else
    let oldPageX := p.pageX
    let oldPageY := p.pageY
    let p := updateLocation p ts
    let pageX := p.pageX
    let pageY := p.pageY
    let dx := pageX - oldPageX
    let dy := pageY - oldPageY
    let p := { p with
      centroidDistance := p.centroidDistance + Real.sqrt (dx * dx + dy * dy) }
    if p.state = .POSSIBLE ∧ p.centroidDistance > p.moveHysteresis then
      let p := { p with
        centroidStartX := pageX
        centroidStartY := pageY
        centroidShiftX := 0
        centroidShiftY := 0 }
      let r1 := setState p .BEGAN
      let r2 := setState r1.1 .CHANGED
      (r2.1, r1.2 ++ r2.2)
    else if (dx ≠ 0 ∨ dy ≠ 0) ∧ p.state = .CHANGED then
      let r := setState p .CHANGED
      (r.1, r.2)
    else
      (p, [])

/-- `PanRecognizer.prototype.touchesEnded`: only while `CHANGED` —
    if the remaining contacts still satisfy `minTouchCount_`, recompute
    the centroid and fold the delta into the shift accumulator;
    otherwise `ENDED` and reset. -/
noncomputable def touchesEnded (p : PanRecognizer) (ts : List Touch) :
    PanRecognizer × List State :=
  if p.state = .CHANGED then
    if (ts.length : ℤ) ≥ p.minTouchCount then
      let oldPageX := p.pageX
      let oldPageY := p.pageY
      let p := updateLocation p ts
      ({ p with
        centroidShiftX := p.centroidShiftX - (p.pageX - oldPageX)
        centroidShiftY := p.centroidShiftY - (p.pageY - oldPageY) }, [])
    else
      let r := setState p .ENDED
      (reset r.1, r.2)
  else
    (p, [])

/-- `PanRecognizer.prototype.touchesCancelled`: unconditionally
    transition to `CANCELLED`, then reset. -/
def touchesCancelled (p : PanRecognizer) : PanRecognizer × List State :=
  let r := setState p .CANCELLED
  (reset r.1, r.2)

end Gestures

namespace Gestures

/-! ### Shared evaluation lemmas -/

/-- Distance accumulated by one `touchesMoved` dispatch: the Euclidean
    length of the centroid displacement of that event
    (`Math.sqrt(dx * dx + dy * dy)` in the source). -/
noncomputable def moveDelta (p : PanRecognizer) (ts : List Touch) : ℝ :=
  Real.sqrt ((centroidX ts - p.pageX) * (centroidX ts - p.pageX) +
    (centroidY ts - p.pageY) * (centroidY ts - p.pageY))

lemma centroidX_single (x y : ℝ) : centroidX [⟨x, y⟩] = x := by
  simp [centroidX]

lemma centroidY_single (x y : ℝ) : centroidY [⟨x, y⟩] = y := by
  simp [centroidY]

lemma moveDelta_eq (p : PanRecognizer) (ts : List Touch) (a b c : ℝ)
    (hx : centroidX ts - p.pageX = a) (hy : centroidY ts - p.pageY = b)
    (h : a * a + b * b = c * c) (hc : 0 ≤ c) : moveDelta p ts = c := by
  rw [moveDelta, hx, hy, h, Real.sqrt_mul_self hc]

/-! ### Branch characterizations of the dispatch methods

Each lemma describes what one branch of the corresponding source
method does to the recognizer, with the branch condition as an
explicit hypothesis. -/

lemma touchesMoved_out_of_range (p : PanRecognizer) (ts : List Touch)
    (h : (ts.length : ℤ) < p.minTouchCount ∨ (ts.length : ℤ) > p.maxTouchCount) :
    touchesMoved p ts = (p, []) := by
  simp only [touchesMoved, if_pos h]

lemma touchesMoved_began (p : PanRecognizer) (ts : List Touch)
    (h1 : p.minTouchCount ≤ (ts.length : ℤ))
    (h2 : (ts.length : ℤ) ≤ p.maxTouchCount)
    (h3 : p.state = .POSSIBLE)
    (hd : p.centroidDistance + moveDelta p ts > p.moveHysteresis) :
    touchesMoved p ts =
      ({ p with
          state := .CHANGED
          pageX := centroidX ts
          pageY := centroidY ts
          centroidStartX := centroidX ts
          centroidStartY := centroidY ts
          centroidShiftX := 0
          centroidShiftY := 0
          centroidDistance := p.centroidDistance + moveDelta p ts },
        [.BEGAN, .CHANGED]) := by
  rw [touchesMoved, if_neg (by omega), updateLocation]
  simp only [moveDelta] at hd
  simp only [setState]
  rw [if_pos ⟨h3, hd⟩]
  simp [moveDelta]

lemma touchesMoved_possible_below (p : PanRecognizer) (ts : List Touch)
    (h1 : p.minTouchCount ≤ (ts.length : ℤ))
    (h2 : (ts.length : ℤ) ≤ p.maxTouchCount)
    (h3 : p.state = .POSSIBLE)
    (hd : p.centroidDistance + moveDelta p ts ≤ p.moveHysteresis) :
    touchesMoved p ts =
      ({ p with
          pageX := centroidX ts
          pageY := centroidY ts
          centroidDistance := p.centroidDistance + moveDelta p ts }, []) := by
  rw [touchesMoved, if_neg (by omega), updateLocation]
  simp only [moveDelta] at hd
  simp only [setState]
  rw [if_neg (by simp; intro; exact hd), if_neg (by simp [h3])]
  simp [moveDelta]

lemma touchesMoved_changed_move (p : PanRecognizer) (ts : List Touch)
    (h1 : p.minTouchCount ≤ (ts.length : ℤ))
    (h2 : (ts.length : ℤ) ≤ p.maxTouchCount)
    (h3 : p.state = .CHANGED)
    (hd : centroidX ts - p.pageX ≠ 0 ∨ centroidY ts - p.pageY ≠ 0) :
    touchesMoved p ts =
      ({ p with
          state := .CHANGED
          pageX := centroidX ts
          pageY := centroidY ts
          centroidDistance := p.centroidDistance + moveDelta p ts },
        [.CHANGED]) := by
  rw [touchesMoved, if_neg (by omega), updateLocation]
  simp only [setState]
  rw [if_neg (by simp [h3]), if_pos (by exact ⟨hd, h3⟩)]
  simp [moveDelta]

lemma touchesMoved_changed_zero (p : PanRecognizer) (ts : List Touch)
    (h1 : p.minTouchCount ≤ (ts.length : ℤ))
    (h2 : (ts.length : ℤ) ≤ p.maxTouchCount)
    (h3 : p.state = .CHANGED)
    (hdx : centroidX ts - p.pageX = 0) (hdy : centroidY ts - p.pageY = 0) :
    touchesMoved p ts =
      ({ p with
          pageX := centroidX ts
          pageY := centroidY ts
          centroidDistance := p.centroidDistance + moveDelta p ts }, []) := by
  rw [touchesMoved, if_neg (by omega), updateLocation]
  simp only [setState]
  rw [if_neg (by simp [h3]), if_neg (by simp [hdx, hdy])]
  simp [moveDelta]

lemma touchesBegan_not_changed (p : PanRecognizer) (ts : List Touch)
    (h : p.state ≠ .CHANGED) :
    touchesBegan p ts = (updateLocation p ts, []) := by
  rw [touchesBegan, updateLocation]
  rw [if_neg (by simp [h])]

lemma touchesBegan_changed_ok (p : PanRecognizer) (ts : List Touch)
    (h : p.state = .CHANGED) (hc : (ts.length : ℤ) ≤ p.maxTouchCount) :
    touchesBegan p ts =
      ({ p with
          pageX := centroidX ts
          pageY := centroidY ts
          centroidShiftX := p.centroidShiftX - (centroidX ts - p.pageX)
          centroidShiftY := p.centroidShiftY - (centroidY ts - p.pageY) },
        []) := by
  rw [touchesBegan, updateLocation]
  rw [if_pos (by simp [h]), if_neg (by simp; omega)]

lemma touchesBegan_changed_exceed (p : PanRecognizer) (ts : List Touch)
    (h : p.state = .CHANGED) (hc : (ts.length : ℤ) > p.maxTouchCount) :
    touchesBegan p ts =
      ({ p with
          state := .POSSIBLE
          pageX := centroidX ts
          pageY := centroidY ts
          centroidStartX := 0
          centroidStartY := 0
          centroidShiftX := 0
          centroidShiftY := 0
          centroidDistance := 0 },
        [.ENDED]) := by
  rw [touchesBegan, updateLocation]
  rw [if_pos (by simp [h]), if_pos (by simpa using hc)]
  simp [setState, reset, baseReset]

lemma touchesEnded_not_changed (p : PanRecognizer) (ts : List Touch)
    (h : p.state ≠ .CHANGED) :
    touchesEnded p ts = (p, []) := by
  rw [touchesEnded, if_neg (by simp [h])]

lemma touchesEnded_changed_ok (p : PanRecognizer) (ts : List Touch)
    (h : p.state = .CHANGED) (hc : (ts.length : ℤ) ≥ p.minTouchCount) :
    touchesEnded p ts =
      ({ p with
          pageX := centroidX ts
          pageY := centroidY ts
          centroidShiftX := p.centroidShiftX - (centroidX ts - p.pageX)
          centroidShiftY := p.centroidShiftY - (centroidY ts - p.pageY) },
        []) := by
  rw [touchesEnded, if_pos (by simp [h]), if_pos (by simpa using hc), updateLocation]

lemma touchesEnded_changed_end (p : PanRecognizer) (ts : List Touch)
    (h : p.state = .CHANGED) (hc : (ts.length : ℤ) < p.minTouchCount) :
    touchesEnded p ts =
      ({ p with
          state := .POSSIBLE
          centroidStartX := 0
          centroidStartY := 0
          centroidShiftX := 0
          centroidShiftY := 0
          centroidDistance := 0 },
        [.ENDED]) := by
  rw [touchesEnded, if_pos (by simp [h]), if_neg (by simp; omega)]
  simp [setState, reset, baseReset]

lemma touchesCancelled_eq (p : PanRecognizer) :
    touchesCancelled p =
      ({ p with
          state := .POSSIBLE
          centroidStartX := 0
          centroidStartY := 0
          centroidShiftX := 0
          centroidShiftY := 0
          centroidDistance := 0 },
        [.CANCELLED]) := by
  simp [touchesCancelled, setState, reset, baseReset]

end Gestures

namespace Gestures

/-! ### Claims -/

/-- C1 (counterexample): in the spec's scenario — Pan with defaults, one
    contact starting at (100,100), `touchesMoved` to (100,108) — the claim
    expects `getTranslateY() = 8` afterwards, but the code snaps
    `centroidStartY_` to the current centroid (108) when `BEGAN` fires,
    so `getTranslateY()` is `108 - 108 + 0 = 0`, not 8. -/
theorem C1_counterexample :
    getTranslateY (touchesMoved (touchesBegan initialPan [⟨100, 100⟩]).1
      [⟨100, 108⟩]).1 ≠ 8 := by
  have hA : touchesBegan initialPan [⟨100, 100⟩] =
      ({ initialPan with pageX := 100, pageY := 100 }, []) := by
    rw [touchesBegan_not_changed _ _ (by simp [initialPan]), updateLocation,
      centroidX_single, centroidY_single]
  set pA : PanRecognizer := { initialPan with pageX := 100, pageY := 100 } with hpA
  have hd : moveDelta pA [⟨100, 108⟩] = 8 :=
    moveDelta_eq _ _ 0 8 8 (by rw [centroidX_single]; simp [hpA, initialPan])
      (by rw [centroidY_single]; simp [hpA, initialPan]; norm_num)
      (by norm_num) (by norm_num)
  have hB : touchesMoved pA [⟨100, 108⟩] =
      ({ pA with
          state := .CHANGED
          pageX := 100
          pageY := 108
          centroidStartX := 100
          centroidStartY := 108
          centroidShiftX := 0
          centroidShiftY := 0
          centroidDistance := 8 }, [.BEGAN, .CHANGED]) := by
    rw [touchesMoved_began pA _ (by simp [hpA, initialPan]) (by simp [hpA, initialPan])
      (by simp [hpA, initialPan]) (by rw [hd]; simp [hpA, initialPan]; norm_num)]
    rw [hd, centroidX_single, centroidY_single]
    simp [hpA, initialPan]
  rw [hA, hB]
  simp [getTranslateY, initialPan]

/-- C1 (amended): Pan with defaults, one contact starting at (100,100).
    A `touchesMoved` to (100,108) makes the recognizer transition
    `POSSIBLE → BEGAN → CHANGED` within that one dispatch, and afterwards
    `getTranslateX() = 0` and `getTranslateY() = 0` (the start centroid
    is snapped to the current centroid when `BEGAN` fires). A subsequent
    `touchesMoved` to (105,108) re-fires `CHANGED`, and afterwards
    `getTranslateX() = 5` and `getTranslateY() = 0`. -/
theorem C1_scenario_amended :
    (touchesBegan initialPan [⟨100, 100⟩]).1.state = State.POSSIBLE ∧
    (touchesBegan initialPan [⟨100, 100⟩]).2 = [] ∧
    (touchesMoved (touchesBegan initialPan [⟨100, 100⟩]).1 [⟨100, 108⟩]).2 =
      [State.BEGAN, State.CHANGED] ∧
    (touchesMoved (touchesBegan initialPan [⟨100, 100⟩]).1 [⟨100, 108⟩]).1.state =
      State.CHANGED ∧
    getTranslateX (touchesMoved (touchesBegan initialPan [⟨100, 100⟩]).1
      [⟨100, 108⟩]).1 = 0 ∧
    getTranslateY (touchesMoved (touchesBegan initialPan [⟨100, 100⟩]).1
      [⟨100, 108⟩]).1 = 0 ∧
    (touchesMoved (touchesMoved (touchesBegan initialPan [⟨100, 100⟩]).1
      [⟨100, 108⟩]).1 [⟨105, 108⟩]).2 = [State.CHANGED] ∧
    getTranslateX (touchesMoved (touchesMoved (touchesBegan initialPan
      [⟨100, 100⟩]).1 [⟨100, 108⟩]).1 [⟨105, 108⟩]).1 = 5 ∧
    getTranslateY (touchesMoved (touchesMoved (touchesBegan initialPan
      [⟨100, 100⟩]).1 [⟨100, 108⟩]).1 [⟨105, 108⟩]).1 = 0 := by
  have hA : touchesBegan initialPan [⟨100, 100⟩] =
      ({ initialPan with pageX := 100, pageY := 100 }, []) := by
    rw [touchesBegan_not_changed _ _ (by simp [initialPan]), updateLocation,
      centroidX_single, centroidY_single]
  set pA : PanRecognizer := { initialPan with pageX := 100, pageY := 100 } with hpA
  have hdB : moveDelta pA [⟨100, 108⟩] = 8 :=
    moveDelta_eq _ _ 0 8 8 (by rw [centroidX_single]; simp [hpA, initialPan])
      (by rw [centroidY_single]; simp [hpA, initialPan]; norm_num)
      (by norm_num) (by norm_num)
  have hB : touchesMoved pA [⟨100, 108⟩] =
      ({ pA with
          state := .CHANGED
          pageX := 100
          pageY := 108
          centroidStartX := 100
          centroidStartY := 108
          centroidShiftX := 0
          centroidShiftY := 0
          centroidDistance := 8 }, [.BEGAN, .CHANGED]) := by
    rw [touchesMoved_began pA _ (by simp [hpA, initialPan]) (by simp [hpA, initialPan])
      (by simp [hpA, initialPan]) (by rw [hdB]; simp [hpA, initialPan]; norm_num)]
    rw [hdB, centroidX_single, centroidY_single]
    simp [hpA, initialPan]
  set pB : PanRecognizer := { pA with
      state := State.CHANGED
      pageX := 100
      pageY := 108
      centroidStartX := 100
      centroidStartY := 108
      centroidShiftX := 0
      centroidShiftY := 0
      centroidDistance := 8 } with hpB
  have hdC : moveDelta pB [⟨105, 108⟩] = 5 :=
    moveDelta_eq _ _ 5 0 5 (by rw [centroidX_single]; simp [hpB, hpA, initialPan]; norm_num)
      (by rw [centroidY_single]; simp [hpB, hpA, initialPan])
      (by norm_num) (by norm_num)
  have hC : touchesMoved pB [⟨105, 108⟩] =
      ({ pB with
          state := .CHANGED
          pageX := 105
          pageY := 108
          centroidDistance := 8 + 5 }, [.CHANGED]) := by
    rw [touchesMoved_changed_move pB _ (by simp [hpB, hpA, initialPan])
      (by simp [hpB, hpA, initialPan]) (by simp [hpB, hpA, initialPan])
      (by left; rw [centroidX_single]; simp [hpB, hpA, initialPan]; norm_num)]
    rw [hdC, centroidX_single, centroidY_single]
  set pC : PanRecognizer := { pB with
      state := State.CHANGED
      pageX := 105
      pageY := 108
      centroidDistance := 8 + 5 } with hpC
  have hA1 : (touchesBegan initialPan [⟨100, 100⟩]).1 = pA := by rw [hA]
  have hB1 : (touchesMoved pA [⟨100, 108⟩]).1 = pB := by rw [hB]
  have hB2 : (touchesMoved pA [⟨100, 108⟩]).2 = [State.BEGAN, State.CHANGED] := by
    rw [hB]
  have hC1 : (touchesMoved pB [⟨105, 108⟩]).1 = pC := by rw [hC]
  have hC2 : (touchesMoved pB [⟨105, 108⟩]).2 = [State.CHANGED] := by rw [hC]
  refine ⟨?_, ?_, ?_, ?_, ?_, ?_, ?_, ?_, ?_⟩
  · rw [hA1]; simp [hpA, initialPan]
  · rw [hA]
  · rw [hA1, hB2]
  · rw [hA1, hB1]
  · rw [hA1, hB1]; simp [getTranslateX, hpB, hpA, initialPan]
  · rw [hA1, hB1]; simp [getTranslateY, hpB, hpA, initialPan]
  · rw [hA1, hB1, hC2]
  · rw [hA1, hB1, hC1]; simp [getTranslateX, hpC, hpB, hpA, initialPan]; norm_num
  · rw [hA1, hB1, hC1]; simp [getTranslateY, hpC, hpB, hpA, initialPan]

end Gestures

namespace Gestures

/-- A concrete recognizer mid-gesture (state `CHANGED`), used as a
    sample input by witnesses. Reachable by a move crossing the
    hysteresis and further moves. -/
noncomputable def sampleChanged : PanRecognizer :=
  { initialPan with
      state := State.CHANGED
      pageX := 1
      pageY := 2
      centroidStartX := 10
      centroidStartY := 20
      centroidShiftX := 3
      centroidShiftY := 4
      centroidDistance := 9 }

/-- C3: while the recognizer is `CHANGED`, a change in the tracked
    contact set leaves the exposed translation unchanged: `touchesBegan`
    with a contact count not exceeding `maxTouchCount_`, and
    `touchesEnded` with a remaining count still at least
    `minTouchCount_`, both fold the centroid delta into the shift
    accumulator, so `getTranslateX`/`getTranslateY` after the dispatch
    equal their values before it. -/
theorem C3_translation_continuity (p : PanRecognizer) (ts : List Touch)
    (h : p.state = State.CHANGED) :
    ((ts.length : ℤ) ≤ p.maxTouchCount →
      getTranslateX (touchesBegan p ts).1 = getTranslateX p ∧
      getTranslateY (touchesBegan p ts).1 = getTranslateY p) ∧
    ((ts.length : ℤ) ≥ p.minTouchCount →
      getTranslateX (touchesEnded p ts).1 = getTranslateX p ∧
      getTranslateY (touchesEnded p ts).1 = getTranslateY p) := by
  constructor
  · intro hc
    rw [touchesBegan_changed_ok p ts h hc]
    constructor <;> simp [getTranslateX, getTranslateY] <;> ring
  · intro hc
    rw [touchesEnded_changed_ok p ts h hc]
    constructor <;> simp [getTranslateX, getTranslateY] <;> ring

/-- Witness for C3 at a concrete mid-gesture recognizer and a
    two-contact event. -/
theorem C3_translation_continuity_witness :
    sampleChanged.state = State.CHANGED ∧
    ((( [⟨6, 8⟩, ⟨10, 12⟩] : List Touch).length : ℤ) ≤ sampleChanged.maxTouchCount →
      getTranslateX (touchesBegan sampleChanged [⟨6, 8⟩, ⟨10, 12⟩]).1 =
        getTranslateX sampleChanged ∧
      getTranslateY (touchesBegan sampleChanged [⟨6, 8⟩, ⟨10, 12⟩]).1 =
        getTranslateY sampleChanged) ∧
    ((( [⟨6, 8⟩, ⟨10, 12⟩] : List Touch).length : ℤ) ≥ sampleChanged.minTouchCount →
      getTranslateX (touchesEnded sampleChanged [⟨6, 8⟩, ⟨10, 12⟩]).1 =
        getTranslateX sampleChanged ∧
      getTranslateY (touchesEnded sampleChanged [⟨6, 8⟩, ⟨10, 12⟩]).1 =
        getTranslateY sampleChanged) :=
  ⟨by simp [sampleChanged, initialPan],
    (C3_translation_continuity sampleChanged [⟨6, 8⟩, ⟨10, 12⟩]
      (by simp [sampleChanged, initialPan])).1,
    (C3_translation_continuity sampleChanged [⟨6, 8⟩, ⟨10, 12⟩]
      (by simp [sampleChanged, initialPan])).2⟩

/-- C4 (counterexample): the claim says exceeding `maximumTouchCount`
    on `touchesBegan` forces `ENDED` and a reset regardless of state,
    but the check sits inside the `CHANGED` branch of the source: with
    a `POSSIBLE` recognizer (`maxTouchCount = 1`, `centroidDistance = 5`,
    both reachable) and a two-contact begin event, no state transition
    fires and `centroidDistance_` keeps its value 5 instead of being
    reset to zero. -/
theorem C4_counterexample :
    (touchesBegan { initialPan with maxTouchCount := 1, centroidDistance := 5 }
      [⟨0, 0⟩, ⟨2, 2⟩]).2 = [] ∧
    (touchesBegan { initialPan with maxTouchCount := 1, centroidDistance := 5 }
      [⟨0, 0⟩, ⟨2, 2⟩]).1.centroidDistance ≠ 0 := by
  rw [touchesBegan_not_changed _ _ (by simp [initialPan])]
  refine ⟨rfl, ?_⟩
  simp [updateLocation, initialPan]

/-- C4 (amended): only while the recognizer is in `CHANGED` does a
    `touchesBegan` whose contact count exceeds `maximumTouchCount`
    transition to `ENDED` and reset all working accumulators
    (`centroidStart`, `centroidShift`, `centroidDistance`) to zero
    before the next `POSSIBLE` cycle. -/
theorem C4_amended_exceed_max (p : PanRecognizer) (ts : List Touch)
    (h : p.state = State.CHANGED) (hc : (ts.length : ℤ) > p.maxTouchCount) :
    (touchesBegan p ts).2 = [State.ENDED] ∧
    (touchesBegan p ts).1.state = State.POSSIBLE ∧
    (touchesBegan p ts).1.centroidStartX = 0 ∧
    (touchesBegan p ts).1.centroidStartY = 0 ∧
    (touchesBegan p ts).1.centroidShiftX = 0 ∧
    (touchesBegan p ts).1.centroidShiftY = 0 ∧
    (touchesBegan p ts).1.centroidDistance = 0 := by
  rw [touchesBegan_changed_exceed p ts h hc]
  exact ⟨rfl, rfl, rfl, rfl, rfl, rfl, rfl⟩

/-- Witness for C4 (amended) at a concrete `CHANGED` recognizer and
    1000 contacts (exceeding the default maximum of 999). -/
theorem C4_amended_exceed_max_witness :
    sampleChanged.state = State.CHANGED ∧
    ((List.replicate 1000 (⟨0, 0⟩ : Touch)).length : ℤ) >
      sampleChanged.maxTouchCount ∧
    (touchesBegan sampleChanged (List.replicate 1000 ⟨0, 0⟩)).2 = [State.ENDED] ∧
    (touchesBegan sampleChanged (List.replicate 1000 ⟨0, 0⟩)).1.state =
      State.POSSIBLE ∧
    (touchesBegan sampleChanged (List.replicate 1000 ⟨0, 0⟩)).1.centroidStartX = 0 ∧
    (touchesBegan sampleChanged (List.replicate 1000 ⟨0, 0⟩)).1.centroidStartY = 0 ∧
    (touchesBegan sampleChanged (List.replicate 1000 ⟨0, 0⟩)).1.centroidShiftX = 0 ∧
    (touchesBegan sampleChanged (List.replicate 1000 ⟨0, 0⟩)).1.centroidShiftY = 0 ∧
    (touchesBegan sampleChanged (List.replicate 1000 ⟨0, 0⟩)).1.centroidDistance = 0 := by
  have h1 : sampleChanged.state = State.CHANGED := by simp [sampleChanged, initialPan]
  have h2 : ((List.replicate 1000 (⟨0, 0⟩ : Touch)).length : ℤ) >
      sampleChanged.maxTouchCount := by
    rw [List.length_replicate]
    simp [sampleChanged, initialPan]
  obtain ⟨a, b, c, d, e, f, g⟩ :=
    C4_amended_exceed_max sampleChanged (List.replicate 1000 ⟨0, 0⟩) h1 h2
  exact ⟨h1, h2, a, b, c, d, e, f, g⟩

/-- C5: a `touchesMoved` whose contact count is strictly below
    `minTouchCount_` or strictly above `maxTouchCount_` is ignored
    entirely: the recognizer is returned unchanged (state, centroid,
    and all accumulators) and no callback fires. -/
theorem C5_out_of_range_ignored (p : PanRecognizer) (ts : List Touch)
    (h : (ts.length : ℤ) < p.minTouchCount ∨ (ts.length : ℤ) > p.maxTouchCount) :
    touchesMoved p ts = (p, []) :=
  touchesMoved_out_of_range p ts h

/-- Witness for C5: an empty contact list is below the default minimum
    of one contact. -/
theorem C5_out_of_range_ignored_witness :
    ((([] : List Touch).length : ℤ) < initialPan.minTouchCount ∨
      (([] : List Touch).length : ℤ) > initialPan.maxTouchCount) ∧
    touchesMoved initialPan [] = (initialPan, []) :=
  ⟨Or.inl (by simp [initialPan]),
    C5_out_of_range_ignored initialPan [] (Or.inl (by simp [initialPan]))⟩

/-- C6: while `CHANGED` with the contact count in range, a
    `touchesMoved` re-fires the `CHANGED` callback exactly when the
    centroid displacement of that event is nonzero; a move with zero
    positional delta fires no callback. -/
theorem C6_changed_refire_iff (p : PanRecognizer) (ts : List Touch)
    (h3 : p.state = State.CHANGED)
    (h1 : p.minTouchCount ≤ (ts.length : ℤ))
    (h2 : (ts.length : ℤ) ≤ p.maxTouchCount) :
    ((touchesMoved p ts).2 = [State.CHANGED] ↔
      (centroidX ts - p.pageX ≠ 0 ∨ centroidY ts - p.pageY ≠ 0)) ∧
    (centroidX ts - p.pageX = 0 ∧ centroidY ts - p.pageY = 0 →
      (touchesMoved p ts).2 = []) := by
  by_cases hd : centroidX ts - p.pageX ≠ 0 ∨ centroidY ts - p.pageY ≠ 0
  · rw [touchesMoved_changed_move p ts h1 h2 h3 hd]
    constructor
    · simp [hd]
    · rintro ⟨hx, hy⟩
      rcases hd with h | h
      · exact absurd hx h
      · exact absurd hy h
  · push_neg at hd
    obtain ⟨hx, hy⟩ := hd
    rw [touchesMoved_changed_zero p ts h1 h2 h3 hx hy]
    exact ⟨by simp [hx, hy], fun _ => rfl⟩

/-- Witness for C6 at a concrete `CHANGED` recognizer and a single
    contact displaced from the tracked centroid. -/
theorem C6_changed_refire_iff_witness :
    sampleChanged.state = State.CHANGED ∧
    sampleChanged.minTouchCount ≤ (([⟨7, 9⟩] : List Touch).length : ℤ) ∧
    (([⟨7, 9⟩] : List Touch).length : ℤ) ≤ sampleChanged.maxTouchCount ∧
    (((touchesMoved sampleChanged [⟨7, 9⟩]).2 = [State.CHANGED] ↔
      (centroidX [⟨7, 9⟩] - sampleChanged.pageX ≠ 0 ∨
        centroidY [⟨7, 9⟩] - sampleChanged.pageY ≠ 0)) ∧
    (centroidX [⟨7, 9⟩] - sampleChanged.pageX = 0 ∧
        centroidY [⟨7, 9⟩] - sampleChanged.pageY = 0 →
      (touchesMoved sampleChanged [⟨7, 9⟩]).2 = [])) :=
  ⟨by simp [sampleChanged, initialPan],
    by simp [sampleChanged, initialPan],
    by simp [sampleChanged, initialPan],
    C6_changed_refire_iff sampleChanged [⟨7, 9⟩]
      (by simp [sampleChanged, initialPan])
      (by simp [sampleChanged, initialPan])
      (by simp [sampleChanged, initialPan])⟩

/-- C7: `touchesCancelled` in any state transitions to `CANCELLED`
    (invoking the callback) and then resets the working accumulators
    `centroidStart`, `centroidShift` and `centroidDistance` to zero,
    returning the recognizer to `POSSIBLE`. -/
theorem C7_cancelled_resets (p : PanRecognizer) :
    (touchesCancelled p).2 = [State.CANCELLED] ∧
    (touchesCancelled p).1.state = State.POSSIBLE ∧
    (touchesCancelled p).1.centroidStartX = 0 ∧
    (touchesCancelled p).1.centroidStartY = 0 ∧
    (touchesCancelled p).1.centroidShiftX = 0 ∧
    (touchesCancelled p).1.centroidShiftY = 0 ∧
    (touchesCancelled p).1.centroidDistance = 0 := by
  rw [touchesCancelled_eq p]
  exact ⟨rfl, rfl, rfl, rfl, rfl, rfl, rfl⟩

/-- C9: a `touchesEnded` dispatched while the state is not `CHANGED`
    leaves the recognizer entirely unchanged and fires no callback; in
    particular `centroidDistance_` accumulated while `POSSIBLE` is not
    reset when the last contact lifts, so (concrete part) a recognizer
    that had accumulated distance 5 crosses the hysteresis of 6 on a
    later move of length only 2. -/
theorem C9_ended_frame (p : PanRecognizer) (ts : List Touch)
    (h : p.state ≠ State.CHANGED) :
    touchesEnded p ts = (p, []) ∧
    (touchesEnded { initialPan with centroidDistance := 5 } []).1.centroidDistance = 5 ∧
    (touchesMoved (touchesEnded { initialPan with centroidDistance := 5 } []).1
      [⟨0, 2⟩]).2 = [State.BEGAN, State.CHANGED] := by
  refine ⟨touchesEnded_not_changed p ts h, ?_, ?_⟩
  · rw [touchesEnded_not_changed { initialPan with centroidDistance := 5 } []
      (by simp [initialPan])]
  · rw [touchesEnded_not_changed { initialPan with centroidDistance := 5 } []
      (by simp [initialPan])]
    set pE : PanRecognizer := { initialPan with centroidDistance := 5 } with hpE
    have hd : moveDelta pE [⟨0, 2⟩] = 2 :=
      moveDelta_eq _ _ 0 2 2 (by rw [centroidX_single]; simp [hpE, initialPan])
        (by rw [centroidY_single]; simp [hpE, initialPan])
        (by norm_num) (by norm_num)
    rw [touchesMoved_began pE _ (by simp [hpE, initialPan]) (by simp [hpE, initialPan])
      (by simp [hpE, initialPan]) (by rw [hd]; simp [hpE, initialPan]; norm_num)]

/-- Witness for C9 at the freshly constructed recognizer (state
    `POSSIBLE`) and an empty remaining-contact list. -/
theorem C9_ended_frame_witness :
    initialPan.state ≠ State.CHANGED ∧
    touchesEnded initialPan [] = (initialPan, []) ∧
    (touchesEnded { initialPan with centroidDistance := 5 } []).1.centroidDistance = 5 ∧
    (touchesMoved (touchesEnded { initialPan with centroidDistance := 5 } []).1
      [⟨0, 2⟩]).2 = [State.BEGAN, State.CHANGED] := by
  have h : initialPan.state ≠ State.CHANGED := by simp [initialPan]
  obtain ⟨a, b, c⟩ := C9_ended_frame initialPan [] h
  exact ⟨h, a, b, c⟩

end Gestures

namespace Gestures

/-- C2: while `POSSIBLE` with the contact count in range, a
    `touchesMoved` fires `BEGAN` exactly when the accumulated centroid
    path length (including this event's displacement) strictly exceeds
    `moveHysteresis_`; when it fires, the start centroid snaps to the
    current centroid, the shift accumulator is zeroed, and `BEGAN` and
    `CHANGED` both fire in that one dispatch, each invoking the
    callback. Concretely, with the default hysteresis of 6: two moves
    of length 3 each (cumulative path exactly 6.0) fire nothing, and a
    further move of length 0.01 (cumulative 6.01) fires
    `BEGAN, CHANGED` on that event. -/
theorem C2_hysteresis_threshold :
    (∀ (p : PanRecognizer) (ts : List Touch),
      p.state = State.POSSIBLE →
      p.minTouchCount ≤ (ts.length : ℤ) →
      (ts.length : ℤ) ≤ p.maxTouchCount →
      ((State.BEGAN ∈ (touchesMoved p ts).2 ↔
        p.centroidDistance + moveDelta p ts > p.moveHysteresis) ∧
      (p.centroidDistance + moveDelta p ts > p.moveHysteresis →
        (touchesMoved p ts).2 = [State.BEGAN, State.CHANGED] ∧
        (touchesMoved p ts).1.state = State.CHANGED ∧
        (touchesMoved p ts).1.centroidStartX = centroidX ts ∧
        (touchesMoved p ts).1.centroidStartY = centroidY ts ∧
        (touchesMoved p ts).1.centroidShiftX = 0 ∧
        (touchesMoved p ts).1.centroidShiftY = 0))) ∧
    (touchesMoved initialPan [⟨0, 3⟩]).2 = [] ∧
    (touchesMoved (touchesMoved initialPan [⟨0, 3⟩]).1 [⟨0, 6⟩]).2 = [] ∧
    (touchesMoved (touchesMoved initialPan [⟨0, 3⟩]).1 [⟨0, 6⟩]).1.centroidDistance
      = 6 ∧
    (touchesMoved (touchesMoved (touchesMoved initialPan [⟨0, 3⟩]).1 [⟨0, 6⟩]).1
      [⟨0, 6.01⟩]).2 = [State.BEGAN, State.CHANGED] := by
  constructor
  · intro p ts h3 h1 h2
    by_cases hd : p.centroidDistance + moveDelta p ts > p.moveHysteresis
    · rw [touchesMoved_began p ts h1 h2 h3 hd]
      exact ⟨by simp [hd], fun _ => ⟨rfl, rfl, rfl, rfl, rfl, rfl⟩⟩
    · rw [touchesMoved_possible_below p ts h1 h2 h3 (not_lt.mp hd)]
      exact ⟨by simp [hd], fun hc => absurd hc hd⟩
  · have hd1 : moveDelta initialPan [⟨0, 3⟩] = 3 :=
      moveDelta_eq _ _ 0 3 3 (by rw [centroidX_single]; simp [initialPan])
        (by rw [centroidY_single]; simp [initialPan])
        (by norm_num) (by norm_num)
    have h1 : touchesMoved initialPan [⟨0, 3⟩] =
        ({ initialPan with pageX := 0, pageY := 3, centroidDistance := 3 }, []) := by
      rw [touchesMoved_possible_below initialPan _ (by simp [initialPan])
        (by simp [initialPan]) (by simp [initialPan])
        (by rw [hd1]; simp [initialPan]; norm_num)]
      rw [hd1, centroidX_single, centroidY_single]
      simp [initialPan]
    set pD1 : PanRecognizer :=
      { initialPan with pageX := 0, pageY := 3, centroidDistance := 3 } with hpD1
    have hd2 : moveDelta pD1 [⟨0, 6⟩] = 3 :=
      moveDelta_eq _ _ 0 3 3 (by rw [centroidX_single]; simp [hpD1, initialPan])
        (by rw [centroidY_single]; simp [hpD1, initialPan]; norm_num)
        (by norm_num) (by norm_num)
    have h2 : touchesMoved pD1 [⟨0, 6⟩] =
        ({ pD1 with pageX := 0, pageY := 6, centroidDistance := 3 + 3 }, []) := by
      rw [touchesMoved_possible_below pD1 _ (by simp [hpD1, initialPan])
        (by simp [hpD1, initialPan]) (by simp [hpD1, initialPan])
        (by rw [hd2]; simp [hpD1, initialPan]; norm_num)]
      rw [hd2, centroidX_single, centroidY_single]
    set pD2 : PanRecognizer :=
      { pD1 with pageX := 0, pageY := 6, centroidDistance := 3 + 3 } with hpD2
    have hd3 : moveDelta pD2 [⟨0, 6.01⟩] = 0.01 :=
      moveDelta_eq _ _ 0 0.01 0.01
        (by rw [centroidX_single]; simp [hpD2, hpD1, initialPan])
        (by rw [centroidY_single]; simp [hpD2, hpD1, initialPan]; norm_num)
        (by norm_num) (by norm_num)
    have h3 : (touchesMoved pD2 [⟨0, 6.01⟩]).2 = [State.BEGAN, State.CHANGED] := by
      rw [touchesMoved_began pD2 _ (by simp [hpD2, hpD1, initialPan])
        (by simp [hpD2, hpD1, initialPan]) (by simp [hpD2, hpD1, initialPan])
        (by rw [hd3]; simp [hpD2, hpD1, initialPan]; norm_num)]
    have h11 : (touchesMoved initialPan [⟨0, 3⟩]).1 = pD1 := by rw [h1]
    have h21 : (touchesMoved pD1 [⟨0, 6⟩]).1 = pD2 := by rw [h2]
    refine ⟨by rw [h1], ?_, ?_, ?_⟩
    · rw [h11, h2]
    · rw [h11, h21]; simp [hpD2, hpD1, initialPan]; norm_num
    · rw [h11, h21, h3]

/-- Witness for C2's quantified part at the default recognizer and a
    single contact moved 8 units. -/
theorem C2_hysteresis_threshold_witness :
    initialPan.state = State.POSSIBLE ∧
    initialPan.minTouchCount ≤ (([⟨0, 8⟩] : List Touch).length : ℤ) ∧
    (([⟨0, 8⟩] : List Touch).length : ℤ) ≤ initialPan.maxTouchCount ∧
    ((State.BEGAN ∈ (touchesMoved initialPan [⟨0, 8⟩]).2 ↔
      initialPan.centroidDistance + moveDelta initialPan [⟨0, 8⟩] >
        initialPan.moveHysteresis) ∧
    (initialPan.centroidDistance + moveDelta initialPan [⟨0, 8⟩] >
        initialPan.moveHysteresis →
      (touchesMoved initialPan [⟨0, 8⟩]).2 = [State.BEGAN, State.CHANGED] ∧
      (touchesMoved initialPan [⟨0, 8⟩]).1.state = State.CHANGED ∧
      (touchesMoved initialPan [⟨0, 8⟩]).1.centroidStartX = centroidX [⟨0, 8⟩] ∧
      (touchesMoved initialPan [⟨0, 8⟩]).1.centroidStartY = centroidY [⟨0, 8⟩] ∧
      (touchesMoved initialPan [⟨0, 8⟩]).1.centroidShiftX = 0 ∧
      (touchesMoved initialPan [⟨0, 8⟩]).1.centroidShiftY = 0)) :=
  ⟨by simp [initialPan], by simp [initialPan], by simp [initialPan],
    C2_hysteresis_threshold.1 initialPan [⟨0, 8⟩] (by simp [initialPan])
      (by simp [initialPan]) (by simp [initialPan])⟩

end Gestures

namespace Gestures

/-- C8: `setMinimumTouchCount` and `setMaximumTouchCount` succeed
    exactly when the state is `POSSIBLE` and the truncated value is at
    least 1, and then store the truncated value; in any other state, or
    with a truncated value below 1, the assertion fails (modelled as
    `none`) and no update takes place. -/
theorem C8_setter_contract (p : PanRecognizer) (v : ℝ) :
    ((setMinimumTouchCount p v).isSome ↔
      p.state = State.POSSIBLE ∧ 1 ≤ toInt32 v) ∧
    ((setMaximumTouchCount p v).isSome ↔
      p.state = State.POSSIBLE ∧ 1 ≤ toInt32 v) ∧
    (p.state = State.POSSIBLE → 1 ≤ toInt32 v →
      setMinimumTouchCount p v = some { p with minTouchCount := toInt32 v } ∧
      setMaximumTouchCount p v = some { p with maxTouchCount := toInt32 v }) := by
  by_cases hs : p.state = State.POSSIBLE
  · by_cases hv : 1 ≤ toInt32 v
    · simp [setMinimumTouchCount, setMaximumTouchCount, hs, hv]
    · simp [setMinimumTouchCount, setMaximumTouchCount, hs, hv]
  · simp [setMinimumTouchCount, setMaximumTouchCount, hs]

/-- Witness for C8 at the default recognizer and the value 3. -/
theorem C8_setter_contract_witness :
    ((setMinimumTouchCount initialPan 3).isSome ↔
      initialPan.state = State.POSSIBLE ∧ 1 ≤ toInt32 3) ∧
    ((setMaximumTouchCount initialPan 3).isSome ↔
      initialPan.state = State.POSSIBLE ∧ 1 ≤ toInt32 3) ∧
    (initialPan.state = State.POSSIBLE → 1 ≤ toInt32 3 →
      setMinimumTouchCount initialPan 3 =
        some { initialPan with minTouchCount := toInt32 3 } ∧
      setMaximumTouchCount initialPan 3 =
        some { initialPan with maxTouchCount := toInt32 3 }) :=
  C8_setter_contract initialPan 3

/-- The truncation `2.9 |= 0` stores 2. -/
lemma toInt32_two_nine : toInt32 (2.9 : ℝ) = 2 := by
  have h : ⌊(2.9 : ℝ)⌋ = 2 := by
    rw [Int.floor_eq_iff]
    norm_num
  norm_num [toInt32, h]

/-- The truncation `0.5 |= 0` stores 0, which fails the `>= 1` check. -/
lemma toInt32_half : toInt32 (0.5 : ℝ) = 0 := by
  have h : ⌊(0.5 : ℝ)⌋ = 0 := by
    rw [Int.floor_eq_iff]
    norm_num
  norm_num [toInt32, h]

/-- C10: both setters truncate the argument with `value |= 0` before
    the `>= 1` check and before storing: while `POSSIBLE`, the stored
    count is the truncated integer; concretely 2.9 stores 2, and 0.5
    truncates to 0 and fails the value assertion. -/
theorem C10_truncation (p : PanRecognizer) (v : ℝ)
    (h : p.state = State.POSSIBLE) :
    (setMinimumTouchCount p v =
      if 1 ≤ toInt32 v then some { p with minTouchCount := toInt32 v }
      else none) ∧
    (setMaximumTouchCount p v =
      if 1 ≤ toInt32 v then some { p with maxTouchCount := toInt32 v }
      else none) ∧
    toInt32 (2.9 : ℝ) = 2 ∧
    toInt32 (0.5 : ℝ) = 0 ∧
    setMinimumTouchCount initialPan (2.9 : ℝ) =
      some { initialPan with minTouchCount := 2 } ∧
    setMinimumTouchCount initialPan (0.5 : ℝ) = none ∧
    setMaximumTouchCount initialPan (2.9 : ℝ) =
      some { initialPan with maxTouchCount := 2 } ∧
    setMaximumTouchCount initialPan (0.5 : ℝ) = none := by
  refine ⟨?_, ?_, toInt32_two_nine, toInt32_half, ?_, ?_, ?_, ?_⟩
  · simp [setMinimumTouchCount, h, ge_iff_le]
  · simp [setMaximumTouchCount, h, ge_iff_le]
  · simp [setMinimumTouchCount, initialPan, toInt32_two_nine]
  · simp [setMinimumTouchCount, initialPan, toInt32_half]
  · simp [setMaximumTouchCount, initialPan, toInt32_two_nine]
  · simp [setMaximumTouchCount, initialPan, toInt32_half]

/-- Witness for C10 at the default recognizer and the value 7. -/
theorem C10_truncation_witness :
    initialPan.state = State.POSSIBLE ∧
    (setMinimumTouchCount initialPan 7 =
      if 1 ≤ toInt32 7 then some { initialPan with minTouchCount := toInt32 7 }
      else none) ∧
    (setMaximumTouchCount initialPan 7 =
      if 1 ≤ toInt32 7 then some { initialPan with maxTouchCount := toInt32 7 }
      else none) ∧
    toInt32 (2.9 : ℝ) = 2 ∧
    toInt32 (0.5 : ℝ) = 0 ∧
    setMinimumTouchCount initialPan (2.9 : ℝ) =
      some { initialPan with minTouchCount := 2 } ∧
    setMinimumTouchCount initialPan (0.5 : ℝ) = none ∧
    setMaximumTouchCount initialPan (2.9 : ℝ) =
      some { initialPan with maxTouchCount := 2 } ∧
    setMaximumTouchCount initialPan (0.5 : ℝ) = none := by
  have h : initialPan.state = State.POSSIBLE := by simp [initialPan]
  obtain ⟨a, b, c, d, e, f, g, i⟩ := C10_truncation initialPan 7 h
  exact ⟨h, a, b, c, d, e, f, g, i⟩

end Gestures
